import Mathlib

/-!
miniblink49: build-time configuration of the Brotli decoder and two generated Blink files

Shallow embedding of

* `third_party/brotli/dec/port.h`: the conditional-compilation logic that
  turns build options and compiler-predefined macros into the feature macros
  `BROTLI_ALIGNED_READ`, `BROTLI_SAFE_MEMMOVE`, `BROTLI_64_BITS`,
  `BROTLI_LITTLE_ENDIAN` and `BROTLI_BIG_ENDIAN`;
* `gen/blink/bindings/modules/v8/V8Geolocation.cpp`: the argument checking of
  the `getCurrentPosition` binding;
* `gen/blink/core/frame/ScrollOptions.h`: the `behavior` property wrapper.
-/

namespace Brotli

/-! ## port.h -/

/-- The macros `port.h` only tests and never defines, except for
`BROTLI_BUILD_PORTABLE`, which it tests and may define itself: the documented
build options (`BROTLI_BUILD_*`, set by the builder) and the macros predefined
by the compiler for the target.  A macro tested with `defined(...)` only is a
`Bool` (defined or not); a macro whose value is compared in an `#if` is an
`Option Int` (`none` = not defined).  The header's own macros (`BROTLI_TARGET_*`
and the feature macros) are not defined before the header is read. -/
structure BuildConfig where
  BROTLI_BUILD_32_BIT : Bool
  BROTLI_BUILD_64_BIT : Bool
  BROTLI_BUILD_BIG_ENDIAN : Bool
  BROTLI_BUILD_ENDIAN_NEUTRAL : Bool
  BROTLI_BUILD_LITTLE_ENDIAN : Bool
  BROTLI_BUILD_PORTABLE : Bool
  __sparc : Bool
  __arm__ : Bool
  __thumb__ : Bool
  _M_ARM : Bool
  _M_ARMT : Bool
  __ARM_ARCH : Option Int
  M_ARM : Option Int
  __aarch64__ : Bool
  __x86_64__ : Bool
  _M_X64 : Bool
  __PPC64__ : Bool
  __BYTE_ORDER__ : Option Int
  __ORDER_LITTLE_ENDIAN__ : Option Int
  __ORDER_BIG_ENDIAN__ : Option Int
  _WIN32 : Bool
  deriving DecidableEq, Repr

/-- The preprocessor operator `defined(X)` for a macro that carries a value. -/
def defined (m : Option Int) : Bool := m.isSome

/-- Value of an identifier inside an `#if` expression: its replacement when it
is a macro, and `0` when it is not defined. -/
def valueOf (m : Option Int) : Int := m.getD 0

/-- Lines 51-53: `#if defined(__sparc)` / `#define BROTLI_TARGET_SPARC`. -/
def BROTLI_TARGET_SPARC (c : BuildConfig) : Bool := c.__sparc

/-- Lines 55-57: `BROTLI_TARGET_ARM` is defined when one of `__arm__`,
`__thumb__`, `_M_ARM`, `_M_ARMT` is. -/
def BROTLI_TARGET_ARM (c : BuildConfig) : Bool :=
  c.__arm__ || c.__thumb__ || c._M_ARM || c._M_ARMT

/-- Lines 58-61, nested in the ARM block: `BROTLI_TARGET_ARMV7` is defined on
an ARM target when `__ARM_ARCH >= 7` or `M_ARM >= 7`. -/
def BROTLI_TARGET_ARMV7 (c : BuildConfig) : Bool :=
  BROTLI_TARGET_ARM c &&
    ((defined c.__ARM_ARCH && decide (valueOf c.__ARM_ARCH ≥ 7)) ||
     (defined c.M_ARM && decide (valueOf c.M_ARM ≥ 7)))

/-- Lines 62-64, nested in the ARM block: `BROTLI_TARGET_ARMV8`. -/
def BROTLI_TARGET_ARMV8 (c : BuildConfig) : Bool :=
  BROTLI_TARGET_ARM c && c.__aarch64__

/-- Lines 67-69: `BROTLI_TARGET_X64`. -/
def BROTLI_TARGET_X64 (c : BuildConfig) : Bool := c.__x86_64__ || c._M_X64

/-- Lines 71-73: `BROTLI_TARGET_POWERPC64`. -/
def BROTLI_TARGET_POWERPC64 (c : BuildConfig) : Bool := c.__PPC64__

/-- Lines 97-102: whether `BROTLI_BUILD_PORTABLE` is defined once the block
commented "SPARC and ARMv6 do not support unaligned read" has been processed. -/
def BROTLI_BUILD_PORTABLE (c : BuildConfig) : Bool :=
  if !c.BROTLI_BUILD_PORTABLE then
    if BROTLI_TARGET_SPARC c || (BROTLI_TARGET_ARM c && !BROTLI_TARGET_ARMV7 c) then
      true
    else
      false
  else
    true

/-- Lines 104-110: `BROTLI_ALIGNED_READ`. -/
def BROTLI_ALIGNED_READ (c : BuildConfig) : Nat :=
  if BROTLI_BUILD_PORTABLE c then 1 else 0

/-- Lines 104-110: `BROTLI_SAFE_MEMMOVE`. -/
def BROTLI_SAFE_MEMMOVE (c : BuildConfig) : Nat :=
  if BROTLI_BUILD_PORTABLE c then 1 else 0

/-- Lines 169-178: `BROTLI_64_BITS`. -/
def BROTLI_64_BITS (c : BuildConfig) : Nat :=
  if c.BROTLI_BUILD_64_BIT then 1
  else if c.BROTLI_BUILD_32_BIT then 0
  else if BROTLI_TARGET_X64 c || BROTLI_TARGET_ARMV8 c || BROTLI_TARGET_POWERPC64 c then 1
  else 0

/-- Lines 180-203: the pair (`BROTLI_LITTLE_ENDIAN`, `BROTLI_BIG_ENDIAN`). -/
def endianMacros (c : BuildConfig) : Nat × Nat :=
  if c.BROTLI_BUILD_BIG_ENDIAN then (0, 1)
  else if c.BROTLI_BUILD_LITTLE_ENDIAN then (1, 0)
  else if c.BROTLI_BUILD_ENDIAN_NEUTRAL then (0, 0)
  else if defined c.__BYTE_ORDER__ &&
      decide (valueOf c.__BYTE_ORDER__ = valueOf c.__ORDER_LITTLE_ENDIAN__) then (1, 0)
  else if c._WIN32 then (1, 0)
  else
    (0,
     if defined c.__BYTE_ORDER__ &&
        decide (valueOf c.__BYTE_ORDER__ = valueOf c.__ORDER_BIG_ENDIAN__) then 1 else 0)

/-- The macro `BROTLI_LITTLE_ENDIAN` after lines 180-203. -/
def BROTLI_LITTLE_ENDIAN (c : BuildConfig) : Nat := (endianMacros c).1

/-- The macro `BROTLI_BIG_ENDIAN` after lines 180-203. -/
def BROTLI_BIG_ENDIAN (c : BuildConfig) : Nat := (endianMacros c).2

/-- A configuration with no build option and no target macro defined. -/
def BuildConfig.none : BuildConfig :=
  { BROTLI_BUILD_32_BIT := false, BROTLI_BUILD_64_BIT := false,
    BROTLI_BUILD_BIG_ENDIAN := false, BROTLI_BUILD_ENDIAN_NEUTRAL := false,
    BROTLI_BUILD_LITTLE_ENDIAN := false, BROTLI_BUILD_PORTABLE := false,
    __sparc := false, __arm__ := false, __thumb__ := false, _M_ARM := false,
    _M_ARMT := false, __ARM_ARCH := Option.none, M_ARM := Option.none,
    __aarch64__ := false, __x86_64__ := false, _M_X64 := false, __PPC64__ := false,
    __BYTE_ORDER__ := Option.none, __ORDER_LITTLE_ENDIAN__ := Option.none,
    __ORDER_BIG_ENDIAN__ := Option.none, _WIN32 := false }

/-- GCC-style x86-64 little-endian target (`__BYTE_ORDER__ == 1234`). -/
def x64Linux : BuildConfig :=
  { BuildConfig.none with
    __x86_64__ := true, __BYTE_ORDER__ := some 1234,
    __ORDER_LITTLE_ENDIAN__ := some 1234, __ORDER_BIG_ENDIAN__ := some 4321 }

/-- The x86-64 target built with both `BROTLI_BUILD_32_BIT` and
`BROTLI_BUILD_64_BIT`. -/
def x64Both32And64 : BuildConfig :=
  { x64Linux with BROTLI_BUILD_32_BIT := true, BROTLI_BUILD_64_BIT := true }

/-- The x86-64 target built with `BROTLI_BUILD_32_BIT` only. -/
def x64Build32 : BuildConfig :=
  { x64Linux with BROTLI_BUILD_32_BIT := true }

/-- The x86-64 target built with `BROTLI_BUILD_ENDIAN_NEUTRAL` and
`BROTLI_BUILD_LITTLE_ENDIAN`. -/
def x64NeutralAndLittle : BuildConfig :=
  { x64Linux with BROTLI_BUILD_ENDIAN_NEUTRAL := true, BROTLI_BUILD_LITTLE_ENDIAN := true }

/-- The x86-64 target built with `BROTLI_BUILD_ENDIAN_NEUTRAL` only. -/
def x64Neutral : BuildConfig :=
  { x64Linux with BROTLI_BUILD_ENDIAN_NEUTRAL := true }

end Brotli

namespace WTF

/-- Modelled from the spec: `WTF::String` is declared in `wtf/text/WTFString.h`,
which is not among the sources.  A string either is the null string (it holds
no `StringImpl`) or holds a sequence of characters, which may be empty. -/
structure String where
  m_impl : Option (List Char)
  deriving DecidableEq, Repr

/-- The null string, `String()`. -/
def String.null : String := ⟨none⟩

/-- The empty, non-null string, `String("")`. -/
def String.empty : String := ⟨some []⟩

/-- The test `String::isNull()`: the string holds no implementation. -/
def String.isNull (s : String) : Bool := s.m_impl.isNone

end WTF

namespace blink

/-! ## ScrollOptions.h -/

/-- The dictionary class `ScrollOptions`: one private member `m_behavior`. -/
structure ScrollOptions where
  m_behavior : WTF.String
  deriving DecidableEq, Repr

/-- The inline member `bool hasBehavior() const { return !m_behavior.isNull(); }`. -/
def ScrollOptions.hasBehavior (o : ScrollOptions) : Bool := !o.m_behavior.isNull

/-- The inline member `String behavior() const { return m_behavior; }`. -/
def ScrollOptions.behavior (o : ScrollOptions) : WTF.String := o.m_behavior

/-- The inline member `void setBehavior(String value) { m_behavior = value; }`. -/
def ScrollOptions.setBehavior (_o : ScrollOptions) (value : WTF.String) : ScrollOptions :=
  { m_behavior := value }

/-! ## V8Geolocation.cpp -/

/-- Modelled from the spec: `v8::Value` is declared by the script engine, not
among the sources.  The binding only asks a value whether it is undefined,
null, a function or an object; a function is an object as well. -/
inductive Value where
  | undefined
  | null
  | boolean (b : Bool)
  | number (n : Int)
  | string (s : String)
  | object (id : Nat)
  | function (id : Nat)
  deriving DecidableEq, Repr

/-- The test `v8::Value::IsFunction()`. -/
def Value.IsFunction : Value → Bool
  | .function _ => true
  | _ => false

/-- The test `v8::Value::IsObject()`. -/
def Value.IsObject : Value → Bool
  | .object _ => true
  | .function _ => true
  | _ => false

/-- The test `v8::Value::IsUndefined()`. -/
def Value.IsUndefined : Value → Bool
  | .undefined => true
  | _ => false

/-- The test `v8::Value::IsNull()`. -/
def Value.IsNull : Value → Bool
  | .null => true
  | _ => false

/-- Modelled from the spec: the helper `isUndefinedOrNull` of the binding
layer is not among the sources. -/
def isUndefinedOrNull (v : Value) : Bool := v.IsUndefined || v.IsNull

/-- Modelled from the spec: `v8::FunctionCallbackInfo<v8::Value>` is declared
by the script engine.  It carries the arguments of the call. -/
structure FunctionCallbackInfo where
  args : List Value
  deriving DecidableEq, Repr

/-- The number of arguments passed, `info.Length()`. -/
def FunctionCallbackInfo.Length (info : FunctionCallbackInfo) : Nat := info.args.length

/-- The argument `info[i]`; an index at or past `Length()` yields undefined. -/
def FunctionCallbackInfo.get (info : FunctionCallbackInfo) (i : Nat) : Value :=
  info.args.getD i Value.undefined

/-- A `PositionCallback` made by `V8PositionCallback::create` from a function. -/
structure PositionCallback where
  callback : Value
  deriving DecidableEq, Repr

/-- A `PositionErrorCallback` made by `V8PositionErrorCallback::create`. -/
structure PositionErrorCallback where
  callback : Value
  deriving DecidableEq, Repr

/-- The factory `V8PositionCallback::create(function, scriptState)`. -/
def V8PositionCallback.create (f : Value) : PositionCallback := ⟨f⟩

/-- The factory `V8PositionErrorCallback::create(function, scriptState)`. -/
def V8PositionErrorCallback.create (f : Value) : PositionErrorCallback := ⟨f⟩

/-- What an `ExceptionState` can hold, by the statement that put it there:
`setMinimumArityTypeError`, `ExceptionState::throwTypeError` with its message,
or an exception `E` set by the `PositionOptions` conversion. -/
inductive Exception (E : Type) where
  | minimumArityTypeError (expected provided : Nat)
  | typeError (message : String)
  | conversion (e : E)
  deriving DecidableEq, Repr

/-- The local `ExceptionState`: the exception set so far, if any. -/
structure ExceptionState (E : Type) where
  exception : Option (Exception E) := none

/-- The member `ExceptionState::throwTypeError(message)`. -/
def ExceptionState.throwTypeError {E : Type} (_es : ExceptionState E) (message : String) :
    ExceptionState E :=
  { exception := some (Exception.typeError message) }

/-- The helper `setMinimumArityTypeError(exceptionState, expected, provided)`. -/
def setMinimumArityTypeError {E : Type} (_es : ExceptionState E) (expected provided : Nat) :
    ExceptionState E :=
  { exception := some (Exception.minimumArityTypeError expected provided) }

/-- The member `ExceptionState::hadException()`. -/
def ExceptionState.hadException {E : Type} (es : ExceptionState E) : Bool :=
  es.exception.isSome

/-- One call of `Geolocation::getCurrentPosition(successCallback, errorCallback,
options)`; a null `errorCallback` is `none`. -/
structure GetCurrentPositionCall (Opts : Type) where
  successCallback : PositionCallback
  errorCallback : Option PositionErrorCallback
  options : Opts

/-- One record of `activityLogger()->logMethod(name, argc, argv)`. -/
structure LogMethodCall where
  name : String
  argc : Nat
  argv : List Value
  deriving DecidableEq, Repr

/-- The effects of running a binding, in order: the exceptions thrown into the
script engine, the calls made on the `Geolocation` implementation, and the
calls made on the activity logger. -/
structure Effects (Opts E : Type) where
  thrown : List (Exception E) := []
  implCalls : List (GetCurrentPositionCall Opts) := []
  logged : List LogMethodCall := []

/-- The member `ExceptionState::throwIfNeeded()`: when an exception is held it
is thrown into the script engine and the result is `true`. -/
def ExceptionState.throwIfNeeded {Opts E : Type} (es : ExceptionState E) (w : Effects Opts E) :
    Bool × Effects Opts E :=
  match es.exception with
  | none => (false, w)
  | some e => (true, { w with thrown := w.thrown ++ [e] })

/-- The member `Geolocation::getCurrentPosition`, seen from the binding: the
call is recorded. -/
def Geolocation.getCurrentPosition {Opts E : Type} (w : Effects Opts E)
    (successCallback : PositionCallback) (errorCallback : Option PositionErrorCallback)
    (options : Opts) : Effects Opts E :=
  { w with implCalls := w.implCalls ++ [⟨successCallback, errorCallback, options⟩] }

/-- The parts of `PositionOptions` the binding uses and the sources do not
hold: the default-constructed dictionary and `V8PositionOptions::toImpl`, which
fills the dictionary from a value and may set an exception. -/
structure V8PositionOptions (Opts E : Type) where
  default : Opts
  toImpl : Value → Opts → Opts × Option E

/-- The function `GeolocationV8Internal::getCurrentPositionMethod` (lines 44-83),
statement by statement; each `return` of the source is a `return` here. -/
def GeolocationV8Internal.getCurrentPositionMethod {Opts E : Type}
    (positionOptions : V8PositionOptions Opts E) (info : FunctionCallbackInfo)
    (w : Effects Opts E) : Effects Opts E := Id.run do
  let mut exceptionState : ExceptionState E := {}
  if info.Length < 1 then
    exceptionState := setMinimumArityTypeError exceptionState 1 info.Length
    return (exceptionState.throwIfNeeded w).2
  let mut errorCallback : Option PositionErrorCallback := none
  let mut options : Opts := positionOptions.default
  if info.Length ≤ 0 || !(info.get 0).IsFunction then
    exceptionState := exceptionState.throwTypeError
      "The callback provided as parameter 1 is not a function."
    return (exceptionState.throwIfNeeded w).2
  let successCallback := V8PositionCallback.create (info.get 0)
  if !isUndefinedOrNull (info.get 1) then
    if !(info.get 1).IsFunction then
      exceptionState := exceptionState.throwTypeError
        "The callback provided as parameter 2 is not a function."
      return (exceptionState.throwIfNeeded w).2
    errorCallback := some (V8PositionErrorCallback.create (info.get 1))
  else
    errorCallback := none
  if !isUndefinedOrNull (info.get 2) && !(info.get 2).IsObject then
    exceptionState := exceptionState.throwTypeError
      "parameter 3 ('options') is not an object."
    return (exceptionState.throwIfNeeded w).2
  let converted := positionOptions.toImpl (info.get 2) options
  options := converted.1
  exceptionState := { exception := converted.2.map Exception.conversion }
  let thrown := exceptionState.throwIfNeeded w
  if thrown.1 then
    return thrown.2
  return Geolocation.getCurrentPosition w successCallback errorCallback options

/-- The function `GeolocationV8Internal::getCurrentPositionMethodCallback`
(lines 85-97), the callback registered under the name `getCurrentPosition` in
`V8GeolocationMethods`: when the context has an activity logger the call is
logged, then `getCurrentPositionMethod` runs. -/
def GeolocationV8Internal.getCurrentPositionMethodCallback {Opts E : Type}
    (positionOptions : V8PositionOptions Opts E) (hasActivityLogger : Bool)
    (info : FunctionCallbackInfo) (w : Effects Opts E) : Effects Opts E :=
  let w :=
    if hasActivityLogger then
      { w with logged := w.logged ++ [⟨"Geolocation.getCurrentPosition", info.Length, info.args⟩] }
    else w
  GeolocationV8Internal.getCurrentPositionMethod positionOptions info w

/-- The arguments are valid for `getCurrentPosition`: at least one argument,
argument 1 a function, argument 2 undefined, null or a function, argument 3
undefined, null or an object, and no exception from the conversion of
argument 3 to `PositionOptions`. -/
def validGetCurrentPositionArgs {Opts E : Type} (positionOptions : V8PositionOptions Opts E)
    (info : FunctionCallbackInfo) : Prop :=
  1 ≤ info.Length ∧ (info.get 0).IsFunction = true ∧
  (isUndefinedOrNull (info.get 1) = true ∨ (info.get 1).IsFunction = true) ∧
  (isUndefinedOrNull (info.get 2) = true ∨ (info.get 2).IsObject = true) ∧
  (positionOptions.toImpl (info.get 2) positionOptions.default).2 = none

instance {Opts E : Type} (positionOptions : V8PositionOptions Opts E)
    (info : FunctionCallbackInfo) :
    Decidable (validGetCurrentPositionArgs positionOptions info) := by
  unfold validGetCurrentPositionArgs
  have : Decidable ((positionOptions.toImpl (info.get 2) positionOptions.default).2 = none) :=
    Option.decidable_eq_none
  infer_instance

end blink

/-! ## Theorems: port.h -/

namespace Brotli

/-- C1: for every build configuration, `BROTLI_ALIGNED_READ` and
`BROTLI_SAFE_MEMMOVE` are both 1 when `BROTLI_BUILD_PORTABLE` is defined by
the builder, or `__sparc` is defined, or one of `__arm__`, `__thumb__`,
`_M_ARM`, `_M_ARMT` is defined and `BROTLI_TARGET_ARMV7` is not; they are both
0 in every other configuration; so the two macros always have the same
value. -/
theorem aligned_read_and_safe_memmove (c : BuildConfig) :
    BROTLI_ALIGNED_READ c =
      (if c.BROTLI_BUILD_PORTABLE = true ∨ c.__sparc = true ∨
          ((c.__arm__ = true ∨ c.__thumb__ = true ∨ c._M_ARM = true ∨ c._M_ARMT = true) ∧
            BROTLI_TARGET_ARMV7 c = false) then 1 else 0) ∧
    BROTLI_SAFE_MEMMOVE c =
      (if c.BROTLI_BUILD_PORTABLE = true ∨ c.__sparc = true ∨
          ((c.__arm__ = true ∨ c.__thumb__ = true ∨ c._M_ARM = true ∨ c._M_ARMT = true) ∧
            BROTLI_TARGET_ARMV7 c = false) then 1 else 0) ∧
    BROTLI_ALIGNED_READ c = BROTLI_SAFE_MEMMOVE c := by
  have key : BROTLI_BUILD_PORTABLE c = true ↔
      (c.BROTLI_BUILD_PORTABLE = true ∨ c.__sparc = true ∨
        ((c.__arm__ = true ∨ c.__thumb__ = true ∨ c._M_ARM = true ∨ c._M_ARMT = true) ∧
          BROTLI_TARGET_ARMV7 c = false)) := by
    unfold BROTLI_BUILD_PORTABLE BROTLI_TARGET_SPARC
    generalize BROTLI_TARGET_ARMV7 c = v7
    unfold BROTLI_TARGET_ARM
    cases c.BROTLI_BUILD_PORTABLE <;> cases c.__sparc <;> cases c.__arm__ <;>
      cases c.__thumb__ <;> cases c._M_ARM <;> cases c._M_ARMT <;> cases v7 <;> simp
  refine ⟨?_, ?_, rfl⟩
  · unfold BROTLI_ALIGNED_READ
    by_cases h : BROTLI_BUILD_PORTABLE c = true
    · rw [if_pos h, if_pos (key.mp h)]
    · rw [if_neg h, if_neg (fun h2 => h (key.mpr h2))]
  · unfold BROTLI_SAFE_MEMMOVE
    by_cases h : BROTLI_BUILD_PORTABLE c = true
    · rw [if_pos h, if_pos (key.mp h)]
    · rw [if_neg h, if_neg (fun h2 => h (key.mpr h2))]

/-- C2, counterexample: on the x86-64 configuration built with both
`BROTLI_BUILD_32_BIT` and `BROTLI_BUILD_64_BIT`, `BROTLI_BUILD_32_BIT` is
defined and `BROTLI_64_BITS` is 1, not 0. -/
theorem build_32_bit_does_not_always_disable :
    ¬ (x64Both32And64.BROTLI_BUILD_32_BIT = true → BROTLI_64_BITS x64Both32And64 = 0) := by
  decide

/-- C2, amended: in every build configuration in which `BROTLI_BUILD_32_BIT`
is defined, `BROTLI_64_BITS` is 0 exactly when `BROTLI_BUILD_64_BIT` is not
defined as well, whatever the target architecture; when both are defined
`BROTLI_BUILD_64_BIT` wins and `BROTLI_64_BITS` is 1. -/
theorem build_32_bit_disables_unless_64_bit (c : BuildConfig)
    (h32 : c.BROTLI_BUILD_32_BIT = true) :
    (BROTLI_64_BITS c = 0 ↔ c.BROTLI_BUILD_64_BIT = false) ∧
    (BROTLI_64_BITS c = 1 ↔ c.BROTLI_BUILD_64_BIT = true) := by
  unfold BROTLI_64_BITS
  rw [h32]
  cases c.BROTLI_BUILD_64_BIT <;> simp

/-- C2, witness: the x86-64 configuration built with `BROTLI_BUILD_32_BIT`
only has `BROTLI_64_BITS` equal to 0. -/
theorem build_32_bit_disables_unless_64_bit_witness :
    x64Build32.BROTLI_BUILD_32_BIT = true ∧
    ((BROTLI_64_BITS x64Build32 = 0 ↔ x64Build32.BROTLI_BUILD_64_BIT = false) ∧
     (BROTLI_64_BITS x64Build32 = 1 ↔ x64Build32.BROTLI_BUILD_64_BIT = true)) :=
  ⟨by decide, build_32_bit_disables_unless_64_bit x64Build32 (by decide)⟩

/-- C3, counterexample: on the x86-64 configuration built with both
`BROTLI_BUILD_ENDIAN_NEUTRAL` and `BROTLI_BUILD_LITTLE_ENDIAN`,
`BROTLI_BUILD_ENDIAN_NEUTRAL` is defined and `BROTLI_LITTLE_ENDIAN` is 1. -/
theorem endian_neutral_does_not_always_disable :
    ¬ (x64NeutralAndLittle.BROTLI_BUILD_ENDIAN_NEUTRAL = true →
        BROTLI_LITTLE_ENDIAN x64NeutralAndLittle = 0 ∧
        BROTLI_BIG_ENDIAN x64NeutralAndLittle = 0) := by
  decide

/-- C3, amended: in every build configuration in which
`BROTLI_BUILD_ENDIAN_NEUTRAL` is defined, `BROTLI_LITTLE_ENDIAN` and
`BROTLI_BIG_ENDIAN` are both 0 exactly when neither `BROTLI_BUILD_BIG_ENDIAN`
nor `BROTLI_BUILD_LITTLE_ENDIAN` is defined, whatever the byte order of the
target. -/
theorem endian_neutral_disables_unless_forced (c : BuildConfig)
    (hn : c.BROTLI_BUILD_ENDIAN_NEUTRAL = true) :
    (BROTLI_LITTLE_ENDIAN c = 0 ∧ BROTLI_BIG_ENDIAN c = 0) ↔
      (c.BROTLI_BUILD_BIG_ENDIAN = false ∧ c.BROTLI_BUILD_LITTLE_ENDIAN = false) := by
  unfold BROTLI_LITTLE_ENDIAN BROTLI_BIG_ENDIAN endianMacros
  rw [hn]
  cases c.BROTLI_BUILD_BIG_ENDIAN <;> cases c.BROTLI_BUILD_LITTLE_ENDIAN <;> simp

/-- C3, witness: the x86-64 little-endian configuration built with
`BROTLI_BUILD_ENDIAN_NEUTRAL` only has both endianness macros equal to 0. -/
theorem endian_neutral_disables_unless_forced_witness :
    x64Neutral.BROTLI_BUILD_ENDIAN_NEUTRAL = true ∧
    ((BROTLI_LITTLE_ENDIAN x64Neutral = 0 ∧ BROTLI_BIG_ENDIAN x64Neutral = 0) ↔
      (x64Neutral.BROTLI_BUILD_BIG_ENDIAN = false ∧
        x64Neutral.BROTLI_BUILD_LITTLE_ENDIAN = false)) :=
  ⟨by decide, endian_neutral_disables_unless_forced x64Neutral (by decide)⟩

end Brotli

/-! ## Theorems: generated Blink code -/

namespace blink

/-- The effects of the registered `getCurrentPosition` callback on a fresh
record of effects, by cases on the argument checks in source order. -/
theorem getCurrentPositionMethodCallback_cases {Opts E : Type}
    (po : V8PositionOptions Opts E) (logger : Bool) (info : FunctionCallbackInfo) :
    let r := GeolocationV8Internal.getCurrentPositionMethodCallback po logger info {}
    (info.Length < 1 ∧ r.implCalls = [] ∧
        r.thrown = [Exception.minimumArityTypeError 1 info.Length]) ∨
    (1 ≤ info.Length ∧ (info.get 0).IsFunction = false ∧ r.implCalls = [] ∧
        r.thrown = [Exception.typeError
          "The callback provided as parameter 1 is not a function."]) ∨
    (1 ≤ info.Length ∧ (info.get 0).IsFunction = true ∧
        isUndefinedOrNull (info.get 1) = false ∧ (info.get 1).IsFunction = false ∧
        r.implCalls = [] ∧
        r.thrown = [Exception.typeError
          "The callback provided as parameter 2 is not a function."]) ∨
    (1 ≤ info.Length ∧ (info.get 0).IsFunction = true ∧
        (isUndefinedOrNull (info.get 1) = true ∨ (info.get 1).IsFunction = true) ∧
        isUndefinedOrNull (info.get 2) = false ∧ (info.get 2).IsObject = false ∧
        r.implCalls = [] ∧
        r.thrown = [Exception.typeError "parameter 3 ('options') is not an object."]) ∨
    (1 ≤ info.Length ∧ (info.get 0).IsFunction = true ∧
        (isUndefinedOrNull (info.get 1) = true ∨ (info.get 1).IsFunction = true) ∧
        (isUndefinedOrNull (info.get 2) = true ∨ (info.get 2).IsObject = true) ∧
        (∃ e, (po.toImpl (info.get 2) po.default).2 = some e ∧
          r.thrown = [Exception.conversion e]) ∧
        r.implCalls = []) ∨
    (validGetCurrentPositionArgs po info ∧ r.thrown = [] ∧
        r.implCalls =
          [{ successCallback := V8PositionCallback.create (info.get 0),
             errorCallback :=
               if isUndefinedOrNull (info.get 1) = true then none
               else some (V8PositionErrorCallback.create (info.get 1)),
             options := (po.toImpl (info.get 2) po.default).1 }]) := by
  intro r
  simp only [r, GeolocationV8Internal.getCurrentPositionMethodCallback,
    GeolocationV8Internal.getCurrentPositionMethod, Id.run, validGetCurrentPositionArgs]
  by_cases hlen : info.Length < 1
  · left
    simp [hlen, setMinimumArityTypeError, ExceptionState.throwIfNeeded]
    cases logger <;> simp
  · right
    have hlen1 : 1 ≤ info.Length := by omega
    have hlen0 : ¬ info.Length ≤ 0 := by omega
    cases h0 : (info.get 0).IsFunction
    · left
      simp [hlen, hlen1, hlen0, h0, ExceptionState.throwTypeError, ExceptionState.throwIfNeeded]
      cases logger <;> simp
    · right
      cases hu1 : isUndefinedOrNull (info.get 1) <;> cases hf1 : (info.get 1).IsFunction <;>
        cases hu2 : isUndefinedOrNull (info.get 2) <;> cases ho2 : (info.get 2).IsObject <;>
        cases hc : (po.toImpl (info.get 2) po.default).2 <;> cases logger <;>
        simp [hlen, hlen1, hlen0, h0, hu1, hf1, hu2, ho2, hc, ExceptionState.throwTypeError,
          ExceptionState.throwIfNeeded, Geolocation.getCurrentPosition]

/-- C4: for every argument list, the registered `getCurrentPosition` callback
calls `Geolocation::getCurrentPosition` exactly once if and only if the
arguments are valid (at least one argument, argument 1 a function, argument 2
undefined, null or a function, argument 3 undefined, null or an object, no
exception from the `PositionOptions` conversion); otherwise, and only then, an
exception is thrown and the implementation is not called.  The `TypeError`
"The callback provided as parameter 1 is not a function." is thrown exactly
when at least one argument is passed and argument 1 is not a function, and the
error callback passed on is null exactly when argument 2 is undefined or
null. -/
theorem getCurrentPosition_forwards_iff_valid {Opts E : Type}
    (po : V8PositionOptions Opts E) (logger : Bool) (info : FunctionCallbackInfo) :
    let r := GeolocationV8Internal.getCurrentPositionMethodCallback po logger info {}
    (r.implCalls.length = 1 ↔ validGetCurrentPositionArgs po info) ∧
    (r.thrown ≠ [] ∧ r.implCalls = [] ↔ ¬ validGetCurrentPositionArgs po info) ∧
    (Exception.typeError "The callback provided as parameter 1 is not a function." ∈ r.thrown ↔
      1 ≤ info.Length ∧ (info.get 0).IsFunction = false) ∧
    (∀ call ∈ r.implCalls,
      call.successCallback = V8PositionCallback.create (info.get 0) ∧
      (call.errorCallback = none ↔ isUndefinedOrNull (info.get 1) = true) ∧
      call.options = (po.toImpl (info.get 2) po.default).1) := by
  intro r
  have h := getCurrentPositionMethodCallback_cases po logger info
  simp only [] at h
  rcases h with ⟨hl, hc, ht⟩ | ⟨hl, h0, hc, ht⟩ | ⟨hl, h0, hu1, hf1, hc, ht⟩ |
    ⟨hl, h0, h1, hu2, ho2, hc, ht⟩ | ⟨hl, h0, h1, h2, ⟨e, he, ht⟩, hc⟩ | ⟨hv, ht, hc⟩
  · have hnv : ¬ validGetCurrentPositionArgs po info := fun hv => by
      have := hv.1; omega
    have hl0 : ¬ 1 ≤ info.Length := by omega
    simp [r, hc, ht, hnv, hl0]
  · have hnv : ¬ validGetCurrentPositionArgs po info := fun hv => by
      have := hv.2.1; simp [h0] at this
    simp [r, hc, ht, hnv, hl, h0]
  · have hnv : ¬ validGetCurrentPositionArgs po info := fun hv => by
      have := hv.2.2.1; simp [hu1, hf1] at this
    simp [r, hc, ht, hnv, hl, h0]
  · have hnv : ¬ validGetCurrentPositionArgs po info := fun hv => by
      have := hv.2.2.2.1; simp [hu2, ho2] at this
    simp [r, hc, ht, hnv, hl, h0]
  · have hnv : ¬ validGetCurrentPositionArgs po info := fun hv => by
      have := hv.2.2.2.2; simp [he] at this
    simp [r, hc, ht, hnv, hl, h0]
  · have h0 := hv.2.1
    by_cases hu1 : isUndefinedOrNull (info.get 1) = true <;>
      simp [r, hc, ht, hv, h0, hu1]

/-- C6: for every string `v`, after `setBehavior(v)` the getter `behavior()`
returns `v`, and `hasBehavior()` is true if and only if `v` is not the null
string; in particular it is true for the empty, non-null string. -/
theorem ScrollOptions_behavior_roundtrip (o : ScrollOptions) (v : WTF.String) :
    (o.setBehavior v).behavior = v ∧
    ((o.setBehavior v).hasBehavior = true ↔ v ≠ WTF.String.null) ∧
    (o.setBehavior WTF.String.empty).hasBehavior = true ∧
    (o.setBehavior WTF.String.null).hasBehavior = false := by
  refine ⟨rfl, ?_, rfl, rfl⟩
  rcases v with ⟨_ | cs⟩ <;>
    simp [ScrollOptions.setBehavior, ScrollOptions.hasBehavior, WTF.String.isNull,
      WTF.String.null]

end blink
